import Mathlib

set_option maxRecDepth 10000

/-!
Shallow embedding of `src/account-view/src/lib.rs` from the
`febo/solana-sdk` repository: the `Account` record, the bit-packed
borrow-state byte, the guarded reference types `Ref` / `RefMut` with
their `map` / `filter_map` / drop behaviour, and the `realloc` and
`close` operations of `AccountView`.

Machine integers are modelled as `Nat` with explicit `% 2^w` at the
points where the Rust code performs wrapping arithmetic or casts.
Stateful methods on `AccountView` become state-passing functions
`Account → ... → Except ProgramError α × Account`: the second component
is the account record after the call (on the target the record lives
behind a raw pointer shared by every alias, so every exit path of a
method, including the implicit `Drop` of a guard, is threaded
explicitly).  The `#[cfg(target_os = "solana")]` branches are the
deployment-target semantics and are what is embedded (`sol_memset_`
and `core::ptr::write_bytes` agree on what they write).
-/

namespace AccountViewSpec

/-- `solana_program_error::ProgramError`, restricted to the two variants
the account-view layer produces: `AccountBorrowFailed` (borrow
conflict) and `InvalidRealloc` (realloc rejected). -/
inductive ProgramError where
  | AccountBorrowFailed
  | InvalidRealloc
  deriving DecidableEq, Repr

/-- `MAX_PERMITTED_DATA_INCREASE: usize = 1_024 * 10`. -/
def MAX_PERMITTED_DATA_INCREASE : ℕ := 1024 * 10

/-- `SET_LEN_MASK: u32 = 1 << 31`. -/
def SET_LEN_MASK : ℕ := 2 ^ 31

/-- `GET_LEN_MASK: u32 = !SET_LEN_MASK` (bitwise not on `u32`). -/
def GET_LEN_MASK : ℕ := 2 ^ 32 - 1 - SET_LEN_MASK

/-- `LAMPORTS_SHIFT: u8 = 4`. -/
def LAMPORTS_SHIFT : ℕ := 4

/-- `DATA_SHIFT: u8 = 0`. -/
def DATA_SHIFT : ℕ := 0

/-- `LAMPORTS_MASK: u8 = 0b_0111_1111` (clears the lamports write bit). -/
def LAMPORTS_MASK : ℕ := 0b01111111

/-- `DATA_MASK: u8 = 0b_1111_0111` (clears the data write bit). -/
def DATA_MASK : ℕ := 0b11110111

/-- The `Account` record (`#[repr(C)] pub struct Account`) together with
the trailing account data bytes.  `key` and `owner` are 32-byte
addresses modelled as natural numbers (`0` is the all-zero address);
`data` gives the byte stored at each index of the buffer that follows
the header. -/
structure Account where
  borrow_state : ℕ
  is_signer : ℕ
  is_writable : ℕ
  executable : ℕ
  original_data_len : ℕ
  key : ℕ
  owner : ℕ
  lamports : ℕ
  data_len : ℕ
  data : ℕ → ℕ

/-- Read guard (`pub struct Ref<'a, T>`): the viewed value plus the
`borrow_shift` telling drop which read count to decrement.  The shared
borrow-state byte is threaded separately (in the source it sits behind
the `state: NonNull<u8>` pointer). -/
structure Ref (T : Type) where
  value : T
  borrow_shift : ℕ

/-- Write guard (`pub struct RefMut<'a, T>`): the viewed value plus the
`borrow_mask` telling drop which write bit to clear. -/
structure RefMut (T : Type) where
  value : T
  borrow_mask : ℕ

/-- `Drop for Ref`: `*state -= 1 << borrow_shift` (wrapping `u8`
subtraction). -/
def Ref.drop {T : Type} (r : Ref T) (state : ℕ) : ℕ :=
  (state + 256 - ((1 <<< r.borrow_shift) % 256)) % 256

/-- `Drop for RefMut`: `*state &= borrow_mask`. -/
def RefMut.drop {T : Type} (r : RefMut T) (state : ℕ) : ℕ :=
  state &&& r.borrow_mask

/-- `Ref::map`: produces a guard over `f(value)` carrying the same
release obligation; the borrow-state byte is not touched (the original
guard's drop is suppressed with `ManuallyDrop`). -/
def Ref.map {T U : Type} (orig : Ref T) (f : T → U) : Ref U :=
  { value := f orig.value, borrow_shift := orig.borrow_shift }

/-- `Ref::filter_map`: on `Some` behaves like `map`; on `None` the
original guard is handed back unchanged (`Err(ManuallyDrop::into_inner(orig))`).
The borrow-state byte is not touched in either case. -/
def Ref.filter_map {T U : Type} (orig : Ref T) (f : T → Option U) :
    Ref U ⊕ Ref T :=
  match f orig.value with
  | some value => Sum.inl { value := value, borrow_shift := orig.borrow_shift }
  | none => Sum.inr orig

/-- `RefMut::map`. -/
def RefMut.map {T U : Type} (orig : RefMut T) (f : T → U) : RefMut U :=
  { value := f orig.value, borrow_mask := orig.borrow_mask }

/-- `RefMut::filter_map`. -/
def RefMut.filter_map {T U : Type} (orig : RefMut T) (f : T → Option U) :
    RefMut U ⊕ RefMut T :=
  match f orig.value with
  | some value => Sum.inl { value := value, borrow_mask := orig.borrow_mask }
  | none => Sum.inr orig

/-- `AccountView::check_borrow_lamports`. -/
def check_borrow_lamports (a : Account) : Except ProgramError Unit :=
  let borrow_state := a.borrow_state
  if borrow_state &&& 0b10000000 ≠ 0 then
    .error ProgramError.AccountBorrowFailed
  else if borrow_state &&& 0b01110000 = 0b01110000 then
    .error ProgramError.AccountBorrowFailed
  else
    .ok ()

/-- `AccountView::check_borrow_mut_lamports`. -/
def check_borrow_mut_lamports (a : Account) : Except ProgramError Unit :=
  if a.borrow_state &&& 0b11110000 ≠ 0 then
    .error ProgramError.AccountBorrowFailed
  else
    .ok ()

/-- `AccountView::check_borrow_data`. -/
def check_borrow_data (a : Account) : Except ProgramError Unit :=
  let borrow_state := a.borrow_state
  if borrow_state &&& 0b00001000 ≠ 0 then
    .error ProgramError.AccountBorrowFailed
  else if borrow_state &&& 0b0111 = 0b0111 then
    .error ProgramError.AccountBorrowFailed
  else
    .ok ()

/-- `AccountView::check_borrow_mut_data`. -/
def check_borrow_mut_data (a : Account) : Except ProgramError Unit :=
  if a.borrow_state &&& 0b00001111 ≠ 0 then
    .error ProgramError.AccountBorrowFailed
  else
    .ok ()

/-- `AccountView::try_borrow_lamports`: after `check_borrow_lamports`
succeeds, `*borrow_state += 1 << LAMPORTS_SHIFT` (wrapping `u8`
addition) and a `Ref` over the lamports value is returned. -/
def try_borrow_lamports (a : Account) :
    Except ProgramError (Ref ℕ) × Account :=
  match check_borrow_lamports a with
  | .error e => (.error e, a)
  | .ok _ =>
    (.ok { value := a.lamports, borrow_shift := LAMPORTS_SHIFT },
     { a with borrow_state := (a.borrow_state + (1 <<< LAMPORTS_SHIFT)) % 256 })

/-- `AccountView::try_borrow_mut_lamports`: after
`check_borrow_mut_lamports` succeeds, `*borrow_state |= 0b_1000_0000`
and a `RefMut` over the lamports value is returned. -/
def try_borrow_mut_lamports (a : Account) :
    Except ProgramError (RefMut ℕ) × Account :=
  match check_borrow_mut_lamports a with
  | .error e => (.error e, a)
  | .ok _ =>
    (.ok { value := a.lamports, borrow_mask := LAMPORTS_MASK },
     { a with borrow_state := a.borrow_state ||| 0b10000000 })

/-- `AccountView::try_borrow_data`: after `check_borrow_data` succeeds,
`*borrow_state += 1` (wrapping `u8` addition) and a `Ref` over the data
slice (modelled as the list of its `data_len` bytes) is returned. -/
def try_borrow_data (a : Account) :
    Except ProgramError (Ref (List ℕ)) × Account :=
  match check_borrow_data a with
  | .error e => (.error e, a)
  | .ok _ =>
    (.ok { value := (List.range a.data_len).map a.data, borrow_shift := DATA_SHIFT },
     { a with borrow_state := (a.borrow_state + 1) % 256 })

/-- `AccountView::try_borrow_mut_data`: after `check_borrow_mut_data`
succeeds, `*borrow_state |= 0b_0000_1000` and a `RefMut` over the data
slice is returned. -/
def try_borrow_mut_data (a : Account) :
    Except ProgramError (RefMut (List ℕ)) × Account :=
  match check_borrow_mut_data a with
  | .error e => (.error e, a)
  | .ok _ =>
    (.ok { value := (List.range a.data_len).map a.data, borrow_mask := DATA_MASK },
     { a with borrow_state := a.borrow_state ||| 0b00001000 })

/-- Dropping the `RefMut<[u8]>` acquired inside `realloc` / implicit at
every exit of `realloc`: clears the data write bit. -/
def dropMutData (a : Account) : Account :=
  { a with borrow_state := a.borrow_state &&& DATA_MASK }

/-- `AccountView::realloc(new_len, zero_init)`.  The acquired
`RefMut` guard is dropped on every exit path, clearing the data write
bit again.  `current_len` is the slice length of the guard, which is
the `data_len` field at entry; `(current_len as u32)` and
`new_len as u64` are the casts of the source. -/
def realloc (a : Account) (new_len : ℕ) (zero_init : Bool) :
    Except ProgramError Unit × Account :=
  match check_borrow_mut_data a with
  | .error e => (.error e, a)
  | .ok _ =>
    -- try_borrow_mut_data sets the data write bit
    let a1 : Account := { a with borrow_state := a.borrow_state ||| 0b00001000 }
    let current_len := a1.data_len
    if new_len = current_len then
      (.ok (), dropMutData a1)
    else
      -- lazily capture the original data length
      let step :=
        let length := a1.original_data_len
        if length &&& SET_LEN_MASK = SET_LEN_MASK then
          ((length &&& GET_LEN_MASK), a1)
        else
          (current_len,
           { a1 with original_data_len := (current_len % 2 ^ 32) ||| SET_LEN_MASK })
      let original_len := step.1
      let a2 := step.2
      if new_len - original_len > MAX_PERMITTED_DATA_INCREASE then
        (.error ProgramError.InvalidRealloc, dropMutData a2)
      else
        let a3 : Account := { a2 with data_len := new_len % 2 ^ 64 }
        let a4 : Account :=
          if zero_init then
            let len_increase := new_len - current_len
            if len_increase > 0 then
              { a3 with
                data := fun i =>
                  if current_len ≤ i ∧ i < current_len + len_increase then 0
                  else a3.data i }
            else a3
          else a3
        (.ok (), dropMutData a4)

/-- `AccountView::close_unchecked` (the `target_os = "solana"` branch):
zero the 48 bytes before the account data, which are the `owner`
(32 bytes), `lamports` (8 bytes) and `data_len` (8 bytes) fields. -/
def close_unchecked (a : Account) : Account :=
  { a with owner := 0, lamports := 0, data_len := 0 }

/-- `AccountView::close`: `check_borrow_mut_data` (a pure check, no
acquisition) then `close_unchecked`. -/
def close (a : Account) : Except ProgramError Unit × Account :=
  match check_borrow_mut_data a with
  | .error e => (.error e, a)
  | .ok _ => (.ok (), close_unchecked a)

/-- The "original serialized length" as `realloc` determines it: the
stored value when the sentinel bit is set, otherwise the current data
length (about to be memoized). -/
def originalLen (a : Account) : ℕ :=
  if a.original_data_len &&& SET_LEN_MASK = SET_LEN_MASK then
    a.original_data_len &&& GET_LEN_MASK
  else
    a.data_len

/-- Lamports read count: bits 4–6 of the borrow-state byte. -/
def lamportsReadCount (state : ℕ) : ℕ := (state >>> 4) &&& 7

/-- Data read count: bits 0–2 of the borrow-state byte. -/
def dataReadCount (state : ℕ) : ℕ := state &&& 7

/-- One step of a transformation chain on a read guard: a `Ref::map`
call or a `Ref::filter_map` call (whose function may decline). -/
inductive RefStep (T : Type) where
  | mapStep (f : T → T)
  | filterStep (f : T → Option T)

/-- One step of a transformation chain on a write guard. -/
inductive RefMutStep (T : Type) where
  | mapStep (f : T → T)
  | filterStep (f : T → Option T)

/-- Run a chain of `map` / `filter_map` transformations on a read
guard.  A declining `filter_map` hands the original guard back to the
caller, who continues with it; exactly one guard is live throughout. -/
def runRefChain {T : Type} : Ref T → List (RefStep T) → Ref T
  | r, [] => r
  | r, RefStep.mapStep f :: rest => runRefChain (Ref.map r f) rest
  | r, RefStep.filterStep f :: rest =>
      match Ref.filter_map r f with
      | Sum.inl r2 => runRefChain r2 rest
      | Sum.inr r0 => runRefChain r0 rest

/-- Run a chain of `map` / `filter_map` transformations on a write
guard. -/
def runRefMutChain {T : Type} : RefMut T → List (RefMutStep T) → RefMut T
  | r, [] => r
  | r, RefMutStep.mapStep f :: rest => runRefMutChain (RefMut.map r f) rest
  | r, RefMutStep.filterStep f :: rest =>
      match RefMut.filter_map r f with
      | Sum.inl r2 => runRefMutChain r2 rest
      | Sum.inr r0 => runRefMutChain r0 rest

/-- Whether an account-view call returned `Ok`. -/
def isOk {α : Type} : Except ProgramError α → Bool
  | .ok _ => true
  | .error _ => false

/-- A concrete account record used to instantiate witnesses. -/
def acct0 : Account :=
  { borrow_state := 0, is_signer := 1, is_writable := 1, executable := 0,
    original_data_len := 0, key := 7, owner := 3, lamports := 5,
    data_len := 4, data := fun i => i + 1 }

/- Byte-level facts about the lamports sub-state, proved by exhausting
the 256 byte values. -/
lemma lamports_byte_facts : ∀ s < 256,
    (¬ s &&& 128 ≠ 0 → ¬ s &&& 112 = 112 →
      (s &&& 128 = 0 ∧ (s >>> 4) &&& 7 < 7) ∧
      (((s + 16) % 256) >>> 4) &&& 7 = ((s >>> 4) &&& 7) + 1) ∧
    (s &&& 112 = 112 → ¬ (s >>> 4) &&& 7 < 7) := by decide

/- Byte-level facts about the data sub-state. -/
lemma data_byte_facts : ∀ s < 256,
    (¬ s &&& 8 ≠ 0 → ¬ s &&& 7 = 7 →
      (s &&& 8 = 0 ∧ s &&& 7 < 7) ∧
      ((s + 1) % 256) &&& 7 = (s &&& 7) + 1) ∧
    (s &&& 7 = 7 → ¬ s &&& 7 < 7) := by decide

/-- C1: for every borrow-state byte and each sub-state,
`try_borrow_lamports` / `try_borrow_data` succeeds iff the sub-state's
write bit is clear and its read count is strictly below 7; on success
the read count is incremented by one; on failure the error is
`AccountBorrowFailed` and the account (in particular the byte) is
unchanged. -/
theorem read_acquire_spec (a : Account) (hb : a.borrow_state < 256) :
    (isOk (try_borrow_lamports a).1 = true ↔
      (a.borrow_state &&& 128 = 0 ∧ lamportsReadCount a.borrow_state < 7))
    ∧ ((a.borrow_state &&& 128 = 0 ∧ lamportsReadCount a.borrow_state < 7) →
        lamportsReadCount (try_borrow_lamports a).2.borrow_state
          = lamportsReadCount a.borrow_state + 1)
    ∧ (isOk (try_borrow_lamports a).1 = false →
        try_borrow_lamports a = (.error ProgramError.AccountBorrowFailed, a))
    ∧ (isOk (try_borrow_data a).1 = true ↔
      (a.borrow_state &&& 8 = 0 ∧ dataReadCount a.borrow_state < 7))
    ∧ ((a.borrow_state &&& 8 = 0 ∧ dataReadCount a.borrow_state < 7) →
        dataReadCount (try_borrow_data a).2.borrow_state
          = dataReadCount a.borrow_state + 1)
    ∧ (isOk (try_borrow_data a).1 = false →
        try_borrow_data a = (.error ProgramError.AccountBorrowFailed, a)) := by
  have hlam := lamports_byte_facts a.borrow_state hb
  have hdat := data_byte_facts a.borrow_state hb
  by_cases h1 : a.borrow_state &&& 128 ≠ 0 <;>
    by_cases h2 : a.borrow_state &&& 112 = 112 <;>
      by_cases h3 : a.borrow_state &&& 8 ≠ 0 <;>
        by_cases h4 : a.borrow_state &&& 7 = 7 <;>
          simp_all [try_borrow_lamports, try_borrow_data,
            check_borrow_lamports, check_borrow_data, isOk,
            lamportsReadCount, dataReadCount, LAMPORTS_SHIFT]

/-- Witness for C1 at a concrete account with borrow-state 0. -/
theorem read_acquire_spec_witness :
    isOk (try_borrow_lamports acct0).1 = true ∧
    isOk (try_borrow_data acct0).1 = true := by
  have h := read_acquire_spec acct0 (by decide)
  exact ⟨h.1.mpr (by decide), h.2.2.2.1.mpr (by decide)⟩

/- Byte-level facts for write acquisition. -/
lemma write_byte_facts : ∀ s < 256,
    (s &&& 240 = 0 → (s ||| 128) &&& 240 ≠ 0 ∧ (s ||| 128) &&& 128 ≠ 0) ∧
    (s &&& 15 = 0 → (s ||| 8) &&& 15 ≠ 0 ∧ (s ||| 8) &&& 8 ≠ 0) := by decide

/-- C2: for every borrow-state byte and each sub-state,
`try_borrow_mut_lamports` / `try_borrow_mut_data` succeeds iff the
whole sub-nibble is zero; on success exactly the write bit of that
sub-state is set (the byte becomes `old ||| bit`, everything else
unchanged); on failure the error is `AccountBorrowFailed` and the
account is unchanged; after a successful write acquisition, a further
write or read acquisition on the same sub-state fails. -/
theorem write_acquire_spec (a : Account) (hb : a.borrow_state < 256) :
    (isOk (try_borrow_mut_lamports a).1 = true ↔ a.borrow_state &&& 240 = 0)
    ∧ (a.borrow_state &&& 240 = 0 →
        try_borrow_mut_lamports a =
          (.ok { value := a.lamports, borrow_mask := LAMPORTS_MASK },
           { a with borrow_state := a.borrow_state ||| 128 }))
    ∧ (isOk (try_borrow_mut_lamports a).1 = false →
        try_borrow_mut_lamports a = (.error ProgramError.AccountBorrowFailed, a))
    ∧ (a.borrow_state &&& 240 = 0 →
        isOk (try_borrow_mut_lamports (try_borrow_mut_lamports a).2).1 = false ∧
        isOk (try_borrow_lamports (try_borrow_mut_lamports a).2).1 = false)
    ∧ (isOk (try_borrow_mut_data a).1 = true ↔ a.borrow_state &&& 15 = 0)
    ∧ (a.borrow_state &&& 15 = 0 →
        try_borrow_mut_data a =
          (.ok { value := (List.range a.data_len).map a.data, borrow_mask := DATA_MASK },
           { a with borrow_state := a.borrow_state ||| 8 }))
    ∧ (isOk (try_borrow_mut_data a).1 = false →
        try_borrow_mut_data a = (.error ProgramError.AccountBorrowFailed, a))
    ∧ (a.borrow_state &&& 15 = 0 →
        isOk (try_borrow_mut_data (try_borrow_mut_data a).2).1 = false ∧
        isOk (try_borrow_data (try_borrow_mut_data a).2).1 = false) := by
  have hw := write_byte_facts a.borrow_state hb
  by_cases h1 : a.borrow_state &&& 240 ≠ 0 <;>
    by_cases h2 : a.borrow_state &&& 15 ≠ 0 <;>
      simp_all [try_borrow_mut_lamports, try_borrow_mut_data,
        try_borrow_lamports, try_borrow_data,
        check_borrow_mut_lamports, check_borrow_mut_data,
        check_borrow_lamports, check_borrow_data, isOk]

/-- Witness for C2 at a concrete account with borrow-state 0. -/
theorem write_acquire_spec_witness :
    isOk (try_borrow_mut_lamports acct0).1 = true ∧
    isOk (try_borrow_mut_data (try_borrow_mut_data acct0).2).1 = false := by
  have h := write_acquire_spec acct0 (by decide)
  exact ⟨h.1.mpr (by decide), (h.2.2.2.2.2.2.2 (by decide)).1⟩

/- A chain of transformations never changes the release metadata of a
read guard. -/
lemma runRefChain_shift {T : Type} (steps : List (RefStep T)) :
    ∀ r : Ref T, (runRefChain r steps).borrow_shift = r.borrow_shift := by
  induction steps with
  | nil => intro r; rfl
  | cons s rest ih =>
    intro r
    cases s with
    | mapStep f => simpa [runRefChain, Ref.map] using ih (Ref.map r f)
    | filterStep f =>
      cases h : f r.value with
      | some v =>
        simp [runRefChain, Ref.filter_map, h]
        simpa using ih { value := v, borrow_shift := r.borrow_shift }
      | none =>
        simp [runRefChain, Ref.filter_map, h]
        exact ih r

/- A chain of transformations never changes the release metadata of a
write guard. -/
lemma runRefMutChain_mask {T : Type} (steps : List (RefMutStep T)) :
    ∀ r : RefMut T, (runRefMutChain r steps).borrow_mask = r.borrow_mask := by
  induction steps with
  | nil => intro r; rfl
  | cons s rest ih =>
    intro r
    cases s with
    | mapStep f => simpa [runRefMutChain, RefMut.map] using ih (RefMut.map r f)
    | filterStep f =>
      cases h : f r.value with
      | some v =>
        simp [runRefMutChain, RefMut.filter_map, h]
        simpa using ih { value := v, borrow_mask := r.borrow_mask }
      | none =>
        simp [runRefMutChain, RefMut.filter_map, h]
        exact ih r

/- Byte-level facts for acquire-then-release round trips. -/
lemma drop_byte_facts : ∀ b < 256,
    (¬ b &&& 128 ≠ 0 → ¬ b &&& 112 = 112 → ((b + 16) % 256 + 256 - 16) % 256 = b) ∧
    (¬ b &&& 8 ≠ 0 → ¬ b &&& 7 = 7 → ((b + 1) % 256 + 256 - 1) % 256 = b) ∧
    (b &&& 240 = 0 → (b ||| 128) &&& 127 = b) ∧
    (b &&& 15 = 0 → (b ||| 8) &&& 247 = b) := by decide

/-- C3: for every successful acquisition (read or write, lamports or
data), after any finite chain of `map` / `filter_map` transformations,
dropping the final live guard restores the borrow-state byte exactly to
its pre-acquire value; the transformations themselves never alter the
release metadata (for arbitrary result types), and a declining
`filter_map` returns the original guard itself — in the embedding it is
a pure function of the guard, so the borrow-state byte is untouched. -/
theorem chain_release_spec (a : Account) (hb : a.borrow_state < 256) :
    (∀ r : Ref ℕ, (try_borrow_lamports a).1 = .ok r →
      ∀ steps : List (RefStep ℕ),
        Ref.drop (runRefChain r steps) (try_borrow_lamports a).2.borrow_state
          = a.borrow_state)
    ∧ (∀ r : Ref (List ℕ), (try_borrow_data a).1 = .ok r →
      ∀ steps : List (RefStep (List ℕ)),
        Ref.drop (runRefChain r steps) (try_borrow_data a).2.borrow_state
          = a.borrow_state)
    ∧ (∀ r : RefMut ℕ, (try_borrow_mut_lamports a).1 = .ok r →
      ∀ steps : List (RefMutStep ℕ),
        RefMut.drop (runRefMutChain r steps) (try_borrow_mut_lamports a).2.borrow_state
          = a.borrow_state)
    ∧ (∀ r : RefMut (List ℕ), (try_borrow_mut_data a).1 = .ok r →
      ∀ steps : List (RefMutStep (List ℕ)),
        RefMut.drop (runRefMutChain r steps) (try_borrow_mut_data a).2.borrow_state
          = a.borrow_state)
    ∧ (∀ (T U : Type) (r : Ref T) (f : T → U),
        (Ref.map r f).borrow_shift = r.borrow_shift)
    ∧ (∀ (T U : Type) (r : RefMut T) (f : T → U),
        (RefMut.map r f).borrow_mask = r.borrow_mask)
    ∧ (∀ (T U : Type) (r : Ref T) (f : T → Option U), f r.value = none →
        Ref.filter_map r f = Sum.inr r)
    ∧ (∀ (T U : Type) (r : RefMut T) (f : T → Option U), f r.value = none →
        RefMut.filter_map r f = Sum.inr r) := by
  have hd := drop_byte_facts a.borrow_state hb
  refine ⟨?_, ?_, ?_, ?_, ?_, ?_, ?_, ?_⟩
  · intro r hr steps
    by_cases h1 : a.borrow_state &&& 128 ≠ 0
    · simp [try_borrow_lamports, check_borrow_lamports, h1] at hr
    · by_cases h2 : a.borrow_state &&& 112 = 112
      · simp [try_borrow_lamports, check_borrow_lamports, h1, h2] at hr
      · simp only [try_borrow_lamports, check_borrow_lamports, h1, h2,
          if_false, if_true, ite_false, ite_true, Except.ok.injEq] at hr
        have hb16 := hd.1 h1 h2
        simp only [Ref.drop, runRefChain_shift, ← hr, LAMPORTS_SHIFT,
          try_borrow_lamports, check_borrow_lamports, h1, h2,
          if_false, if_true, ite_false, ite_true, Nat.shiftLeft_eq]
        norm_num
        omega
  · intro r hr steps
    by_cases h1 : a.borrow_state &&& 8 ≠ 0
    · simp [try_borrow_data, check_borrow_data, h1] at hr
    · by_cases h2 : a.borrow_state &&& 7 = 7
      · simp [try_borrow_data, check_borrow_data, h1, h2] at hr
      · simp only [try_borrow_data, check_borrow_data, h1, h2,
          if_false, if_true, ite_false, ite_true, Except.ok.injEq] at hr
        have hb1 := hd.2.1 h1 h2
        simp only [Ref.drop, runRefChain_shift, ← hr, DATA_SHIFT,
          try_borrow_data, check_borrow_data, h1, h2,
          if_false, if_true, ite_false, ite_true, Nat.shiftLeft_eq]
        norm_num
        omega
  · intro r hr steps
    by_cases h1 : a.borrow_state &&& 240 ≠ 0
    · simp [try_borrow_mut_lamports, check_borrow_mut_lamports, h1] at hr
    · simp only [try_borrow_mut_lamports, check_borrow_mut_lamports, h1,
        if_false, if_true, ite_false, ite_true, Except.ok.injEq] at hr
      have hmask := hd.2.2.1 (by omega)
      simp only [RefMut.drop, runRefMutChain_mask, ← hr, LAMPORTS_MASK,
        try_borrow_mut_lamports, check_borrow_mut_lamports, h1,
        if_false, if_true, ite_false, ite_true]
      exact hmask
  · intro r hr steps
    by_cases h1 : a.borrow_state &&& 15 ≠ 0
    · simp [try_borrow_mut_data, check_borrow_mut_data, h1] at hr
    · simp only [try_borrow_mut_data, check_borrow_mut_data, h1,
        if_false, if_true, ite_false, ite_true, Except.ok.injEq] at hr
      have hmask := hd.2.2.2 (by omega)
      simp only [RefMut.drop, runRefMutChain_mask, ← hr, DATA_MASK,
        try_borrow_mut_data, check_borrow_mut_data, h1,
        if_false, if_true, ite_false, ite_true]
      exact hmask
  · intro T U r f; rfl
  · intro T U r f; rfl
  · intro T U r f h; simp [Ref.filter_map, h]
  · intro T U r f h; simp [RefMut.filter_map, h]

/-- Witness for C3: a concrete two-step chain on a data read guard. -/
theorem chain_release_spec_witness :
    Ref.drop
      (runRefChain { value := [1, 2, 3, 4], borrow_shift := DATA_SHIFT }
        [RefStep.mapStep (fun l => l ++ [9]),
         RefStep.filterStep (fun _ => none)])
      (try_borrow_data acct0).2.borrow_state = acct0.borrow_state := by
  have h := (chain_release_spec acct0 (by decide)).2.1
    { value := [1, 2, 3, 4], borrow_shift := DATA_SHIFT }
  refine h ?_ _
  rfl

/-- C4 counterexample: a realloc that fails with `InvalidRealloc` can
leave `original_data_len` changed — the lazy memoization (store current
length with the sentinel bit) happens before the growth-ceiling check.
At `acct0` (`original_data_len = 0`, `data_len = 4`), requesting
length 10245 fails yet sets `original_data_len` to `4 ||| 2^31`. -/
theorem realloc_fail_not_atomic_cex :
    (realloc acct0 10245 false).1 = Except.error ProgramError.InvalidRealloc ∧
    (realloc acct0 10245 false).2.original_data_len ≠ acct0.original_data_len :=
  ⟨rfl, by decide⟩

/-- C4 (amended): a failed acquire changes no field of the account
record; a realloc that fails with the borrow-conflict error changes no
field; a realloc that fails with `InvalidRealloc` leaves borrow_state,
data_len, the data bytes, owner and lamports unchanged, and leaves
original_data_len unchanged when the memoization sentinel was already
set — when it was not yet set, original_data_len becomes the current
length combined with the sentinel bit (the one-time lazy capture). -/
theorem failed_call_atomicity (a : Account) (hb : a.borrow_state < 256) :
    (isOk (try_borrow_lamports a).1 = false → (try_borrow_lamports a).2 = a)
    ∧ (isOk (try_borrow_mut_lamports a).1 = false → (try_borrow_mut_lamports a).2 = a)
    ∧ (isOk (try_borrow_data a).1 = false → (try_borrow_data a).2 = a)
    ∧ (isOk (try_borrow_mut_data a).1 = false → (try_borrow_mut_data a).2 = a)
    ∧ (∀ new_len : ℕ, ∀ zi : Bool,
        (realloc a new_len zi).1 = .error ProgramError.AccountBorrowFailed →
        (realloc a new_len zi).2 = a)
    ∧ (∀ new_len : ℕ, ∀ zi : Bool,
        (realloc a new_len zi).1 = .error ProgramError.InvalidRealloc →
        (realloc a new_len zi).2.borrow_state = a.borrow_state
        ∧ (realloc a new_len zi).2.data_len = a.data_len
        ∧ (∀ i, (realloc a new_len zi).2.data i = a.data i)
        ∧ (realloc a new_len zi).2.owner = a.owner
        ∧ (realloc a new_len zi).2.lamports = a.lamports
        ∧ (a.original_data_len &&& SET_LEN_MASK = SET_LEN_MASK →
            (realloc a new_len zi).2.original_data_len = a.original_data_len)
        ∧ (a.original_data_len &&& SET_LEN_MASK ≠ SET_LEN_MASK →
            (realloc a new_len zi).2.original_data_len
              = (a.data_len % 2 ^ 32) ||| SET_LEN_MASK)) := by
  have hd := drop_byte_facts a.borrow_state hb
  refine ⟨?_, ?_, ?_, ?_, ?_, ?_⟩
  · intro h
    by_cases h1 : a.borrow_state &&& 128 ≠ 0
    · simp [try_borrow_lamports, check_borrow_lamports, h1]
    · by_cases h2 : a.borrow_state &&& 112 = 112
      · simp [try_borrow_lamports, check_borrow_lamports, h1, h2]
      · simp [try_borrow_lamports, check_borrow_lamports, h1, h2, isOk] at h
  · intro h
    by_cases h1 : a.borrow_state &&& 240 ≠ 0
    · simp [try_borrow_mut_lamports, check_borrow_mut_lamports, h1]
    · simp [try_borrow_mut_lamports, check_borrow_mut_lamports, h1, isOk] at h
  · intro h
    by_cases h1 : a.borrow_state &&& 8 ≠ 0
    · simp [try_borrow_data, check_borrow_data, h1]
    · by_cases h2 : a.borrow_state &&& 7 = 7
      · simp [try_borrow_data, check_borrow_data, h1, h2]
      · simp [try_borrow_data, check_borrow_data, h1, h2, isOk] at h
  · intro h
    by_cases h1 : a.borrow_state &&& 15 ≠ 0
    · simp [try_borrow_mut_data, check_borrow_mut_data, h1]
    · simp [try_borrow_mut_data, check_borrow_mut_data, h1, isOk] at h
  · intro new_len zi h
    by_cases h1 : a.borrow_state &&& 15 ≠ 0
    · simp [realloc, check_borrow_mut_data, h1]
    · exfalso
      by_cases h2 : new_len = a.data_len
      · simp [realloc, check_borrow_mut_data, h1, h2] at h
      · by_cases h3 : a.original_data_len &&& SET_LEN_MASK = SET_LEN_MASK
        · by_cases h4 :
            new_len - (a.original_data_len &&& GET_LEN_MASK) > MAX_PERMITTED_DATA_INCREASE
          · simp [realloc, check_borrow_mut_data, h1, h2, h3, h4] at h
          · simp [realloc, check_borrow_mut_data, h1, h2, h3, h4] at h
        · by_cases h4 : new_len - a.data_len > MAX_PERMITTED_DATA_INCREASE
          · simp [realloc, check_borrow_mut_data, h1, h2, h3, h4] at h
          · simp [realloc, check_borrow_mut_data, h1, h2, h3, h4] at h
  · intro new_len zi h
    have hmask : (a.borrow_state ||| 8) &&& 247 = a.borrow_state := by
      by_cases h1 : a.borrow_state &&& 15 ≠ 0
      · exfalso; simp [realloc, check_borrow_mut_data, h1] at h
      · exact hd.2.2.2 (by omega)
    by_cases h1 : a.borrow_state &&& 15 ≠ 0
    · exfalso; simp [realloc, check_borrow_mut_data, h1] at h
    · by_cases h2 : new_len = a.data_len
      · exfalso; simp [realloc, check_borrow_mut_data, h1, h2] at h
      · by_cases h3 : a.original_data_len &&& SET_LEN_MASK = SET_LEN_MASK
        · by_cases h4 :
            new_len - (a.original_data_len &&& GET_LEN_MASK) > MAX_PERMITTED_DATA_INCREASE
          · simp [realloc, check_borrow_mut_data, h1, h2, h3, h4, dropMutData, DATA_MASK]
            exact hmask
          · exfalso; simp [realloc, check_borrow_mut_data, h1, h2, h3, h4] at h
        · by_cases h4 : new_len - a.data_len > MAX_PERMITTED_DATA_INCREASE
          · simp [realloc, check_borrow_mut_data, h1, h2, h3, h4, dropMutData, DATA_MASK]
            exact hmask
          · exfalso; simp [realloc, check_borrow_mut_data, h1, h2, h3, h4] at h

/-- Witness for C4 (amended) at `acct0` with a rejected growth request. -/
theorem failed_call_atomicity_witness :
    (realloc acct0 10245 false).2.borrow_state = acct0.borrow_state ∧
    (realloc acct0 10245 false).2.data_len = acct0.data_len ∧
    (realloc acct0 10245 false).2.original_data_len
      = (acct0.data_len % 2 ^ 32) ||| SET_LEN_MASK := by
  have h := (failed_call_atomicity acct0 (by decide)).2.2.2.2.2 10245 false rfl
  exact ⟨h.1, h.2.1, h.2.2.2.2.2.2 (by decide)⟩

/-- C5: for an account whose data is not borrowed, with `originalLen`
the memoized (or, when not yet captured, the current) original
serialized length, and under the documented invariant
`data_len ≤ originalLen + 10240`: realloc to `originalLen + 10240`
succeeds, and realloc to `originalLen + 10241` fails with
`InvalidRealloc` leaving `data_len` unchanged. -/
theorem realloc_growth_bound (a : Account)
    (hfree : a.borrow_state &&& 15 = 0)
    (hinv : a.data_len ≤ originalLen a + MAX_PERMITTED_DATA_INCREASE) (zi : Bool) :
    (realloc a (originalLen a + 10240) zi).1 = .ok ()
    ∧ (realloc a (originalLen a + 10241) zi).1 = .error ProgramError.InvalidRealloc
    ∧ (realloc a (originalLen a + 10241) zi).2.data_len = a.data_len := by
  have h1 : ¬ a.borrow_state &&& 15 ≠ 0 := by simp [hfree]
  have hmax : MAX_PERMITTED_DATA_INCREASE = 10240 := by norm_num [MAX_PERMITTED_DATA_INCREASE]
  by_cases h3 : a.original_data_len &&& SET_LEN_MASK = SET_LEN_MASK
  · have horig : originalLen a = a.original_data_len &&& GET_LEN_MASK := by
      simp [originalLen, h3]
    have h2e : originalLen a + 10241 ≠ a.data_len := by omega
    have h4e : (originalLen a + 10241) - (a.original_data_len &&& GET_LEN_MASK)
        > MAX_PERMITTED_DATA_INCREASE := by rw [← horig]; omega
    refine ⟨?_, ?_, ?_⟩
    · by_cases h2 : originalLen a + 10240 = a.data_len
      · simp [realloc, check_borrow_mut_data, h1, h2]
      · have h4 : ¬ (originalLen a + 10240) - (a.original_data_len &&& GET_LEN_MASK)
            > MAX_PERMITTED_DATA_INCREASE := by rw [← horig]; omega
        simp [realloc, check_borrow_mut_data, h1, h2, h3, h4]
    · simp [realloc, check_borrow_mut_data, h1, h2e, h3, h4e]
    · simp [realloc, check_borrow_mut_data, h1, h2e, h3, h4e, dropMutData]
  · have horig : originalLen a = a.data_len := by simp [originalLen, h3]
    have h2e : originalLen a + 10241 ≠ a.data_len := by omega
    have h4e : (originalLen a + 10241) - a.data_len > MAX_PERMITTED_DATA_INCREASE := by
      omega
    refine ⟨?_, ?_, ?_⟩
    · have h2 : originalLen a + 10240 ≠ a.data_len := by omega
      have h4 : ¬ (originalLen a + 10240) - a.data_len > MAX_PERMITTED_DATA_INCREASE := by
        omega
      simp [realloc, check_borrow_mut_data, h1, h2, h3, h4]
    · simp [realloc, check_borrow_mut_data, h1, h2e, h3, h4e]
    · simp [realloc, check_borrow_mut_data, h1, h2e, h3, h4e, dropMutData]

/-- Witness for C5 at `acct0` (`originalLen acct0 = 4`). -/
theorem realloc_growth_bound_witness :
    (realloc acct0 (originalLen acct0 + 10240) false).1 = .ok () ∧
    (realloc acct0 (originalLen acct0 + 10241) false).1
      = .error ProgramError.InvalidRealloc :=
  ⟨(realloc_growth_bound acct0 (by decide) (by decide) false).1,
   (realloc_growth_bound acct0 (by decide) (by decide) false).2.1⟩

/-- C6: for every successful `realloc(new_len, true)` with pre-call
length `cur_len = a.data_len`: every byte with index in
`[cur_len, new_len)` is zero afterwards, and every byte below
`cur_len` or at index `≥ new_len` is bit-for-bit unchanged; in
particular when `new_len < cur_len` no byte is cleared. -/
theorem realloc_zero_init_span (a : Account) (new_len : ℕ)
    (hok : (realloc a new_len true).1 = .ok ()) :
    ∀ i : ℕ,
      (a.data_len ≤ i ∧ i < new_len → (realloc a new_len true).2.data i = 0)
      ∧ ((i < a.data_len ∨ new_len ≤ i) →
          (realloc a new_len true).2.data i = a.data i) := by
  intro i
  by_cases h1 : a.borrow_state &&& 15 ≠ 0
  · exfalso; simp [realloc, check_borrow_mut_data, h1] at hok
  · by_cases h2 : new_len = a.data_len
    · constructor
      · intro hi; omega
      · intro _; simp [realloc, check_borrow_mut_data, h1, h2, dropMutData]
    · by_cases h3 : a.original_data_len &&& SET_LEN_MASK = SET_LEN_MASK
      · by_cases h4 : new_len - (a.original_data_len &&& GET_LEN_MASK)
            > MAX_PERMITTED_DATA_INCREASE
        · exfalso; simp [realloc, check_borrow_mut_data, h1, h2, h3, h4] at hok
        · by_cases h5 : new_len - a.data_len > 0
          · constructor
            · intro hi
              simp [realloc, check_borrow_mut_data, h1, h2, h3, h4, h5, dropMutData]
              intro h
              exfalso
              have h6 := h hi.1
              omega
            · intro hi
              simp [realloc, check_borrow_mut_data, h1, h2, h3, h4, h5, dropMutData]
              intro h6 h7
              exfalso
              omega
          · constructor
            · intro hi; omega
            · intro _
              simp [realloc, check_borrow_mut_data, h1, h2, h3, h4, h5, dropMutData]
      · by_cases h4 : new_len - a.data_len > MAX_PERMITTED_DATA_INCREASE
        · exfalso; simp [realloc, check_borrow_mut_data, h1, h2, h3, h4] at hok
        · by_cases h5 : new_len - a.data_len > 0
          · constructor
            · intro hi
              simp [realloc, check_borrow_mut_data, h1, h2, h3, h4, h5, dropMutData]
              intro h
              exfalso
              have h6 := h hi.1
              omega
            · intro hi
              simp [realloc, check_borrow_mut_data, h1, h2, h3, h4, h5, dropMutData]
              intro h6 h7
              exfalso
              omega
          · constructor
            · intro hi; omega
            · intro _
              simp [realloc, check_borrow_mut_data, h1, h2, h3, h4, h5, dropMutData]

/-- Witness for C6: growing `acct0` from length 4 to 8 with
zero-initialization zeroes index 5 and preserves index 2. -/
theorem realloc_zero_init_span_witness :
    (realloc acct0 8 true).2.data 5 = 0 ∧
    (realloc acct0 8 true).2.data 2 = acct0.data 2 :=
  ⟨(realloc_zero_init_span acct0 8 rfl 5).1 (by decide),
   (realloc_zero_init_span acct0 8 rfl 2).2 (by decide)⟩

/-- C7: `close()` fails with the borrow-conflict error exactly when the
data sub-nibble is non-zero (some data handle, read or write, is
outstanding), leaving the account unchanged; when no data handle is
outstanding it succeeds and afterwards owner is the all-zero address,
lamports is zero and data_len is zero, while the data bytes are
unmodified. -/
theorem close_spec (a : Account) :
    ((close a).1 = .ok () ↔ a.borrow_state &&& 15 = 0)
    ∧ (a.borrow_state &&& 15 ≠ 0 →
        close a = (.error ProgramError.AccountBorrowFailed, a))
    ∧ (a.borrow_state &&& 15 = 0 →
        (close a).2.owner = 0 ∧ (close a).2.lamports = 0 ∧
        (close a).2.data_len = 0 ∧ (∀ i, (close a).2.data i = a.data i)) := by
  by_cases h1 : a.borrow_state &&& 15 ≠ 0 <;>
    simp_all [close, check_borrow_mut_data, close_unchecked]

/-- Witness for C7 at `acct0` (no outstanding data handle). -/
theorem close_spec_witness :
    (close acct0).1 = .ok () ∧ (close acct0).2.owner = 0 := by
  have h := close_spec acct0
  exact ⟨h.1.mpr (by decide), (h.2.2 (by decide)).1⟩

/-- C8: for an account whose data is not borrowed, `realloc` with the
current data length returns success and performs no state mutation at
all: the resulting record is the input record (the write bit set by the
internal acquire is cleared again by the guard's drop before the early
return, and the memoization is not reached). -/
theorem realloc_same_len_noop (a : Account) (hb : a.borrow_state < 256)
    (hfree : a.borrow_state &&& 15 = 0) (zi : Bool) :
    realloc a a.data_len zi = (.ok (), a) := by
  obtain ⟨bs, s, w, e, odl, k, ow, l, dl, d⟩ := a
  have hmask := (drop_byte_facts bs hb).2.2.2 hfree
  simp [realloc, check_borrow_mut_data, hfree, dropMutData, DATA_MASK,
    Prod.ext_iff, Account.mk.injEq, hmask]

/-- Witness for C8 at `acct0`. -/
theorem realloc_same_len_noop_witness :
    realloc acct0 acct0.data_len false = (.ok (), acct0) :=
  realloc_same_len_noop acct0 (by decide) (by decide) false

/-- C9: the concrete scenario on a shared record starting at
borrow-state `0x00`: three successive data read acquisitions succeed
and leave the byte at `0x03`; a data write acquisition then fails with
the borrow-conflict error and changes nothing; dropping one data read
handle (the handle returned by the borrow) brings the byte to `0x02`;
a lamports write acquisition then succeeds and leaves the byte at
`0x82`. -/
theorem borrow_scenario :
    (try_borrow_data acct0).2.borrow_state = 0x01
    ∧ (try_borrow_data (try_borrow_data acct0).2).2.borrow_state = 0x02
    ∧ (try_borrow_data (try_borrow_data (try_borrow_data acct0).2).2).2.borrow_state
        = 0x03
    ∧ (try_borrow_mut_data
        (try_borrow_data (try_borrow_data (try_borrow_data acct0).2).2).2).1
        = .error ProgramError.AccountBorrowFailed
    ∧ (try_borrow_mut_data
        (try_borrow_data (try_borrow_data (try_borrow_data acct0).2).2).2).2
        = (try_borrow_data (try_borrow_data (try_borrow_data acct0).2).2).2
    ∧ (try_borrow_data (try_borrow_data acct0).2).1
        = .ok { value := [1, 2, 3, 4], borrow_shift := DATA_SHIFT }
    ∧ Ref.drop ({ value := [1, 2, 3, 4], borrow_shift := DATA_SHIFT } : Ref (List ℕ))
        (try_borrow_data (try_borrow_data (try_borrow_data acct0).2).2).2.borrow_state
        = 0x02
    ∧ isOk (try_borrow_mut_lamports
        { (try_borrow_data (try_borrow_data (try_borrow_data acct0).2).2).2 with
            borrow_state := 0x02 }).1 = true
    ∧ (try_borrow_mut_lamports
        { (try_borrow_data (try_borrow_data (try_borrow_data acct0).2).2).2 with
            borrow_state := 0x02 }).2.borrow_state = 0x82 :=
  ⟨rfl, rfl, rfl, rfl, rfl, rfl, rfl, rfl, rfl⟩

/-- C10: `close()` consults only the data sub-state: for every
borrow-state byte whose data nibble is zero it succeeds and zeroes the
lamports (and owner and data_len) fields, regardless of outstanding
lamports borrows. -/
theorem close_ignores_lamports_substate (a : Account)
    (hdatafree : a.borrow_state &&& 15 = 0) :
    (close a).1 = .ok () ∧ (close a).2.lamports = 0 ∧
    (close a).2.owner = 0 ∧ (close a).2.data_len = 0 := by
  have h1 : ¬ a.borrow_state &&& 15 ≠ 0 := by simp [hdatafree]
  simp [close, check_borrow_mut_data, h1, close_unchecked]

/-- Witness for C10 at an account whose lamports write bit is set
(lamports nibble non-zero) while the data nibble is zero: `close`
still succeeds and zeroes the lamports field. -/
theorem close_ignores_lamports_substate_witness :
    ({ acct0 with borrow_state := 128 } : Account).borrow_state &&& 240 ≠ 0 ∧
    (close { acct0 with borrow_state := 128 }).1 = .ok () ∧
    (close { acct0 with borrow_state := 128 }).2.lamports = 0 :=
  ⟨by decide,
   (close_ignores_lamports_substate { acct0 with borrow_state := 128 } (by decide)).1,
   (close_ignores_lamports_substate { acct0 with borrow_state := 128 } (by decide)).2.1⟩

end AccountViewSpec
